import Mathlib

/-!
Verification of the vind backend data-access layer (Go, package
vind/backend): the identifier validator (backend/helper/common.go), the
SQL builders and the connection gateway (backend/internal/service/postgre.go),
and the column-scan conversion used by ListColumns.

Go strings are modelled as Lean String values; per-character operations
work on s.data (the list of Unicode scalar code points).  Go byte-level
operations on the relevant ASCII character classes coincide with the
code-point-level model.  strings.ToUpper and unicode.IsSpace are modelled
for the ASCII/Latin-1 range, which is the range all supported operators,
SQL keywords and whitespace of interest live in.
-/

/-! ## Character primitives (Go unicode/strings package fragments) -/

/-- Numeric code of a character. -/
def charCode (c : Char) : Nat := c.toNat

/-- Go unicode.IsSpace restricted to the Latin-1 range: space, \t, \n,
\v, \f, \r, NEL (U+0085) and NBSP (U+00A0). -/
def goIsSpace (c : Char) : Bool :=
  decide (c.toNat = 32 ∨ c.toNat = 9 ∨ c.toNat = 10 ∨ c.toNat = 11 ∨
    c.toNat = 12 ∨ c.toNat = 13 ∨ c.toNat = 133 ∨ c.toNat = 160)

/-- Go unicode.ToUpper restricted to ASCII: maps codes 97..122 (a..z)
down by 32 (to A..Z) and leaves every other character unchanged. -/
def goCharToUpper (c : Char) : Char :=
  if 97 ≤ c.toNat ∧ c.toNat ≤ 122 then Char.ofNat (c.toNat - 32) else c

/-- ASCII letter, the regex class [a-zA-Z] (codes 65..90 and 97..122). -/
def isAsciiLetter (c : Char) : Bool :=
  decide ((65 ≤ c.toNat ∧ c.toNat ≤ 90) ∨ (97 ≤ c.toNat ∧ c.toNat ≤ 122))

/-- ASCII digit, the regex class [0-9] (codes 48..57). -/
def isAsciiDigit (c : Char) : Bool :=
  decide (48 ≤ c.toNat ∧ c.toNat ≤ 57)

/-- The underscore character (code 95). -/
def isUnderscoreChar (c : Char) : Bool :=
  decide (c.toNat = 95)

/-- The regex class [a-zA-Z_] heading IdentifierRegex. -/
def isIdentHeadChar (c : Char) : Bool :=
  isAsciiLetter c || isUnderscoreChar c

/-- The regex class [a-zA-Z0-9_] in the tail of IdentifierRegex. -/
def isIdentTailChar (c : Char) : Bool :=
  isAsciiLetter c || isAsciiDigit c || isUnderscoreChar c

/-- helper.IsValidIdentifier: IdentifierRegex.MatchString(s) for
IdentifierRegex = regexp.MustCompile of the anchored pattern
first-char [a-zA-Z_], remaining chars [a-zA-Z0-9_]*. -/
def IsValidIdentifier (s : String) : Bool :=
  match s.data with
  | [] => false
  | c :: rest => isIdentHeadChar c && rest.all isIdentTailChar

/-! ## Claim C8 -/

/-- Statement of the spec's description of the identifier regex, written
from the spec's words: s is non-empty, consists only of ASCII letters,
digits, and underscore, and its first character is not a digit. -/
def MatchesIdentifierRegex (s : String) : Prop :=
  s.data ≠ [] ∧
  (∀ c ∈ s.data, isAsciiLetter c = true ∨ isAsciiDigit c = true ∨ isUnderscoreChar c = true) ∧
  (∀ c, s.data.head? = some c → isAsciiDigit c = false)

/-! ## Value model and built statements -/

/-- A Go `any` value as it appears in positional-argument lists and in
scanned result rows: driver-native scalars. -/
inductive GoValue where
  | null
  | str (s : String)
  | int (n : Int)
  | bool (b : Bool)
deriving DecidableEq

/-- A (sqlText, orderedArgs) pair produced by a query builder. -/
structure BuiltQuery where
  query : String
  args : List GoValue
deriving DecidableEq

/-- Outcome of an Except-valued builder, abstracting err != nil. -/
def isErr {α : Type} (r : Except String α) : Bool :=
  match r with
  | .error _ => true
  | .ok _ => false

/-! ## Go library fragments used by the builders -/

/-- pq.QuoteIdentifier: truncate at the first NUL, double every inner
double-quote, and wrap the result in double quotes. -/
def pqQuoteIdentifier (name : String) : String :=
  String.mk ('"' :: ((name.data.takeWhile (fun c => c.toNat != 0)).flatMap
    (fun c => if c = '"' then ['"', '"'] else [c])) ++ ['"'])

/-- Helper for strings.SplitN(s, ":", 3): split off the segment before
the first colon, or none when no colon occurs. -/
def splitOnceAtColon : List Char → Option (List Char × List Char)
  | [] => none
  | c :: rest =>
    if c = ':' then some ([], rest)
    else
      match splitOnceAtColon rest with
      | none => none
      | some (a, b) => some (c :: a, b)

/-- strings.SplitN(s, ":", 3): at most three parts, the third keeps any
further colons. -/
def goSplitN3 (s : String) : List String :=
  match splitOnceAtColon s.data with
  | none => [s]
  | some (a, r) =>
    match splitOnceAtColon r with
    | none => [String.mk a, String.mk r]
    | some (b, c) => [String.mk a, String.mk b, String.mk c]

/-- strings.ToUpper, modelled for ASCII. -/
def goToUpperStr (s : String) : String :=
  String.mk (s.data.map goCharToUpper)

/-- Decimal value of a digit string; none when empty is handled by the
caller, none here when any character is not an ASCII digit. -/
def decDigitsVal (l : List Char) : Option Nat :=
  l.foldl
    (fun acc c =>
      match acc with
      | none => none
      | some n => if isAsciiDigit c then some (n * 10 + (c.toNat - 48)) else none)
    (some 0)

/-- strconv.Atoi: optional single leading sign, then one or more decimal
digits; anything else is an error (modelled as none).  Overflow of the
machine int, which Atoi also reports as an error, is not modelled; the
claims checked here never exercise it. -/
def goAtoi (s : String) : Option Int :=
  match s.data with
  | [] => none
  | '+' :: rest =>
    if rest = [] then none else (decDigitsVal rest).map (fun n => (n : Int))
  | '-' :: rest =>
    if rest = [] then none else (decDigitsVal rest).map (fun n => -(n : Int))
  | l => (decDigitsVal l).map (fun n => (n : Int))

/-! ## GetTableData builder (postgre.go lines 192-239) -/

structure TableDataRequest where
  schema : String
  table : String
  limit : String
  offset : String
  orderBy : String
  filters : List String

/-- The supported-operator switch of GetTableData. -/
def isSupportedOp (op : String) : Bool :=
  op == "LIKE" || op == "=" || op == ">" || op == "<" || op == ">=" || op == "<="

/-- One WHERE condition: quoted column, uppercased operator, positional
placeholder (fmt.Sprintf of col, op, len(args)+1). -/
def filterClause (colRaw opUpper : String) (idx : Nat) : String :=
  pqQuoteIdentifier colRaw ++ " " ++ opUpper ++ " $" ++ toString idx

/-- Body of the filter loop of GetTableData: split on ":" into exactly
three parts (otherwise skip), uppercase the operator, and when the
operator is supported append a condition and bind the value; otherwise
skip the filter. -/
def filterStep (acc : List String × List GoValue) (f : String) : List String × List GoValue :=
  match goSplitN3 f with
  | [colRaw, opRaw, val] =>
    if isSupportedOp (goToUpperStr opRaw) then
      (acc.1 ++ [filterClause colRaw (goToUpperStr opRaw) (acc.2.length + 1)],
       acc.2 ++ [GoValue.str val])
    else acc
  | _ => acc

/-- The fixed head of the table-data SELECT. -/
def selectStar (schema table : String) : String :=
  "SELECT * FROM \"" ++ schema ++ "\".\"" ++ table ++ "\""

/-- The trailing LIMIT/OFFSET clause with the next two placeholders. -/
def limitOffsetSuffix (nargs : Nat) : String :=
  " LIMIT $" ++ toString (nargs + 1) ++ " OFFSET $" ++ toString (nargs + 2)

/-- The pure query-building prefix of GetTableData, up to (but not
including) the db.Query call: identifier validation, limit/offset
parsing, filter loop, WHERE/ORDER BY/LIMIT assembly. -/
def buildTableDataQuery (req : TableDataRequest) : Except String BuiltQuery :=
  if !(IsValidIdentifier req.schema && IsValidIdentifier req.table) then
    .error "invalid schema or table name"
  else
    match goAtoi req.limit with
    | none => .error "invalid limit"
    | some limitInt =>
      if limitInt < 0 then .error "invalid limit"
      else
        match goAtoi req.offset with
        | none => .error "invalid offset"
        | some offsetInt =>
          if offsetInt < 0 then .error "invalid offset"
          else
            let condsArgs := req.filters.foldl filterStep ([], [])
            let q1 :=
              if condsArgs.1.length > 0 then
                selectStar req.schema req.table ++ " WHERE " ++
                  String.intercalate " AND " condsArgs.1
              else selectStar req.schema req.table
            let q2 :=
              if req.orderBy != "" && IsValidIdentifier req.orderBy then
                q1 ++ " ORDER BY " ++ pqQuoteIdentifier req.orderBy
              else q1
            .ok { query := q2 ++ limitOffsetSuffix condsArgs.2.length,
                  args := condsArgs.2 ++ [GoValue.int limitInt, GoValue.int offsetInt] }

/-! ## InsertRecord builder (postgre.go lines 267-294) -/

/-- The pure query-building prefix of InsertRecord.  The Go map is
modelled as an association list in one fixed iteration order; column
names are joined into the SQL text verbatim, with no validation and no
quoting. -/
def buildInsertQuery (schema table : String) (data : List (String × GoValue)) :
    Except String BuiltQuery :=
  if data.length = 0 then .error "no data to insert"
  else
    .ok { query := "INSERT INTO \"" ++ schema ++ "\".\"" ++ table ++ "\" (" ++
            String.intercalate ", " (data.map Prod.fst) ++ ") VALUES (" ++
            String.intercalate ", "
              ((List.range data.length).map (fun i => "$" ++ toString (i + 1))) ++ ")",
          args := data.map Prod.snd }

/-! ## UpdateRecord and DeleteRecord builders (postgre.go lines 296-385) -/

/-- The shared clause loop of UpdateRecord and DeleteRecord: for each
(column, value) pair, reject the column name unless IsValidIdentifier
holds, else emit a quoted-column equality clause with the next
placeholder index and bind the value. -/
def buildEqClauses : List (String × GoValue) → Nat → Except String (List String × List GoValue)
  | [], _ => .ok ([], [])
  | (col, val) :: rest, i =>
    if IsValidIdentifier col then
      match buildEqClauses rest (i + 1) with
      | .error e => .error e
      | .ok (cs, vs) =>
        .ok (("\"" ++ col ++ "\" = $" ++ toString i) :: cs, val :: vs)
    else .error ("invalid column name: " ++ col)

/-- The pure query-building prefix of UpdateRecord: reject an empty SET
map, reject an empty WHERE map, validate every column name in both maps,
then assemble UPDATE ... SET ... WHERE ... with one shared placeholder
counter (SET values first, WHERE values after). -/
def buildUpdateQuery (schema table : String) (data wh : List (String × GoValue)) :
    Except String BuiltQuery :=
  if data.length = 0 then .error "no fields to update"
  else if wh.length = 0 then .error "missing WHERE clause - dangerous update prevented"
  else
    match buildEqClauses data 1 with
    | .error e => .error e
    | .ok (setClauses, setVals) =>
      match buildEqClauses wh (data.length + 1) with
      | .error e => .error e
      | .ok (whereClauses, whereVals) =>
        .ok { query := "UPDATE \"" ++ schema ++ "\".\"" ++ table ++ "\" SET " ++
                String.intercalate ", " setClauses ++ " WHERE " ++
                String.intercalate " AND " whereClauses,
              args := setVals ++ whereVals }

/-- The pure query-building prefix of DeleteRecord: default the schema to
public, reject a missing table name or empty condition map, validate
every condition column name, then assemble DELETE FROM ... WHERE ... . -/
def buildDeleteQuery (schema table : String) (conditions : List (String × GoValue)) :
    Except String BuiltQuery :=
  let schema := if schema == "" then "public" else schema
  if table == "" || conditions.length == 0 then
    .error "table name and conditions are required"
  else
    match buildEqClauses conditions 1 with
    | .error e => .error e
    | .ok (conds, args) =>
      .ok { query := "DELETE FROM \"" ++ schema ++ "\".\"" ++ table ++ "\" WHERE " ++
              String.intercalate " AND " conds,
            args := args }

/-! ## CreateTable, AlterTable, DropTable builders (postgre.go lines 387-495) -/

/-- model.ColumnDef (backend/internal/model/table_data.go). -/
structure ColumnDef where
  name : String
  type : String
  primaryKey : Bool
  notNull : Bool
  colDefault : String

/-- One column clause of CREATE TABLE: quoted name, raw type, optional
NOT NULL, optional DEFAULT expression. -/
def createColumnClause (col : ColumnDef) : String :=
  String.intercalate " "
    ([pqQuoteIdentifier col.name, col.type] ++
     (if col.notNull then ["NOT NULL"] else []) ++
     (if col.colDefault != "" then ["DEFAULT " ++ col.colDefault] else []))

/-- The pure query-building part of CreateTable: reject an empty table
name or column list, emit one clause per column plus a single aggregated
PRIMARY KEY clause when any column is flagged primary key. -/
def buildCreateTableQuery (tableName : String) (columns : List ColumnDef) :
    Except String String :=
  if tableName == "" || columns.length == 0 then .error "invalid table definition"
  else
    let colDefs := columns.map createColumnClause
    let pkCols := (columns.filter (fun col => col.primaryKey)).map
      (fun col => pqQuoteIdentifier col.name)
    let allDefs :=
      colDefs ++
        (if pkCols.length > 0 then
          ["PRIMARY KEY (" ++ String.intercalate ", " pkCols ++ ")"]
         else [])
    .ok ("CREATE TABLE " ++ pqQuoteIdentifier tableName ++ " (" ++
      String.intercalate ", " allDefs ++ ");")

/-- model.AlterTableOperation (backend/internal/model/table_data.go). -/
structure AlterTableOperation where
  action : String
  columnName : String
  newName : String
  type : String
  notNull : Option Bool
  colDefault : String

/-- The per-operation switch of AlterTable: each action maps to one or
more ALTER TABLE sub-clauses, or to an error for a missing field or an
unknown action. -/
def alterOpStatements (op : AlterTableOperation) : Except String (List String) :=
  if op.action == "add_column" then
    if op.columnName == "" || op.type == "" then
      .error "add_column requires column_name and type"
    else .ok ["ADD COLUMN " ++ pqQuoteIdentifier op.columnName ++ " " ++ op.type]
  else if op.action == "drop_column" then
    if op.columnName == "" then .error "drop_column requires column_name"
    else .ok ["DROP COLUMN " ++ pqQuoteIdentifier op.columnName]
  else if op.action == "rename_column" then
    if op.columnName == "" || op.newName == "" then
      .error "rename_column requires column_name and new_name"
    else
      .ok ["RENAME COLUMN " ++ pqQuoteIdentifier op.columnName ++ " TO " ++
        pqQuoteIdentifier op.newName]
  else if op.action == "alter_column" then
    if op.columnName == "" then .error "alter_column requires column_name"
    else
      .ok ((if op.type != "" then
              ["ALTER COLUMN " ++ pqQuoteIdentifier op.columnName ++ " TYPE " ++ op.type]
            else []) ++
           (match op.notNull with
            | some true => ["ALTER COLUMN " ++ pqQuoteIdentifier op.columnName ++ " SET NOT NULL"]
            | some false => ["ALTER COLUMN " ++ pqQuoteIdentifier op.columnName ++ " DROP NOT NULL"]
            | none => []) ++
           (if op.colDefault != "" then
              ["ALTER COLUMN " ++ pqQuoteIdentifier op.columnName ++ " SET DEFAULT " ++
                op.colDefault]
            else []))
  else .error ("unsupported action: " ++ op.action)

/-- The sequential operation loop of AlterTable: first failing operation
aborts, otherwise all sub-clauses are concatenated in order. -/
def collectAlterStatements : List AlterTableOperation → Except String (List String)
  | [] => .ok []
  | op :: rest =>
    match alterOpStatements op with
    | .error e => .error e
    | .ok s =>
      match collectAlterStatements rest with
      | .error e => .error e
      | .ok ss => .ok (s ++ ss)

/-- The pure query-building part of AlterTable: reject an empty table
name or operation list, then one multi-clause statement. -/
def buildAlterTableQuery (tableName : String) (ops : List AlterTableOperation) :
    Except String String :=
  if tableName == "" || ops.length == 0 then .error "invalid alter table request"
  else
    match collectAlterStatements ops with
    | .error e => .error e
    | .ok stmts =>
      .ok ("ALTER TABLE " ++ pqQuoteIdentifier tableName ++ " " ++
        String.intercalate ", " stmts ++ ";")

/-- The pure query-building part of DropTable: reject an empty table
name; append CASCADE only when requested. -/
def buildDropTableQuery (tableName : String) (cascade : Bool) : Except String String :=
  if tableName == "" then .error "table name is required"
  else
    .ok ("DROP TABLE " ++ pqQuoteIdentifier tableName ++
      (if cascade then " CASCADE" else "") ++ ";")

/-! ## ListColumns row conversion (postgre.go lines 125-147) -/

/-- model.Column: the record returned per column.  Default and
ForeignKey are plain Go strings (zero value the empty string), exactly
as in the Go struct. -/
structure Column where
  name : String
  type : String
  nullable : Bool
  colDefault : String
  isUnique : Bool
  foreignKey : String
deriving DecidableEq

/-- One raw catalog row as scanned by ListColumns: column_name,
data_type, is_nullable, column_default (sql.NullString), is_unique
(sql.NullBool), foreign_key (sql.NullString). -/
structure ColumnCatalogRow where
  columnName : String
  dataType : String
  isNullable : String
  columnDefault : Option String
  isUnique : Option Bool
  foreignKey : Option String
deriving DecidableEq

/-- The per-row conversion of ListColumns: Nullable is the string
comparison with YES; Default is set from the NullString only when it is
valid (otherwise the field keeps the Go zero value, the empty string);
IsUnique is Valid && Bool; ForeignKey like Default. -/
def scanColumn (r : ColumnCatalogRow) : Column :=
  { name := r.columnName
    type := r.dataType
    nullable := r.isNullable == "YES"
    colDefault := match r.columnDefault with | some s => s | none => ""
    isUnique := match r.isUnique with | some b => b | none => false
    foreignKey := match r.foreignKey with | some s => s | none => "" }

/-! ## Connection gateway model (postgre.go lines 16-38 and the ops) -/

/-- The behaviour of one live database handle, as seen through the
database/sql surface the client uses: Ping, Exec (returns rows affected),
Query (returns columns and generic rows), plus the typed catalog query of
ListColumns.  A handle is a bundle of response functions; the claims
never depend on driver internals beyond these. -/
structure Database where
  pingError : Option String
  closeError : Option String
  exec : String → List GoValue → Except String Int
  query : String → List GoValue → Except String (List String × List (List GoValue))
  catalogColumns : String → String → Except String (List ColumnCatalogRow)

/-- PostgresClient: db is nil until a Connect stores a handle. -/
structure PostgresClient where
  db : Option Database

/-- NewPostgresClient: returns a client with a nil db handle. -/
def NewPostgresClient : PostgresClient := { db := none }

/-- Outcome of a client operation.  nilDeref models the Go runtime panic
raised when a method is invoked through the nil db handle of a client
that has never connected: not an error return, a crash. -/
inductive GoResult (α : Type) where
  | ok (val : α)
  | err (msg : String)
  | nilDeref
deriving DecidableEq

/-- Connect: sql.Open either fails (the stored handle is untouched) or
yields a handle that is stored unconditionally before the liveness probe;
the result of db.Ping() is returned as Connect's error.  The third
component lists the handles Close was invoked on during the call: none,
ever — a superseded handle is left open.  sql.Open validating only the
DSN format is modelled by the openResult argument. -/
def connect (p : PostgresClient) (openResult : Except String Database) :
    PostgresClient × Option String × List Database :=
  match openResult with
  | .error e => (p, some e, [])
  | .ok db => ({ db := some db }, db.pingError, [])

/-- Disconnect: Close only a non-nil handle; the stored handle is not
cleared.  Third component lists the handles Close was invoked on. -/
def disconnect (p : PostgresClient) : PostgresClient × Option String × List Database :=
  match p.db with
  | none => (p, none, [])
  | some db => (p, db.closeError, [db])

/-- Scan a result set of single-text-column rows into strings, as the
rows.Next/rows.Scan loops of ListSchemas and ListTables do; a row that
cannot be scanned into one string destination aborts with the scan
error. -/
def scanStringRows (rows : List (List GoValue)) : Except String (List String) :=
  match rows with
  | [] => .ok []
  | row :: rest =>
    match row with
    | [GoValue.str s] =>
      (match scanStringRows rest with
       | .error e => .error e
       | .ok ss => .ok (s :: ss))
    | _ => .error "sql: Scan error"

/-- ListSchemas: queries the schemata catalog through the stored handle
(dereferencing nil when never connected) and scans one name per row. -/
def listSchemas (p : PostgresClient) : GoResult (List String) :=
  match p.db with
  | none => .nilDeref
  | some db =>
    match db.query "SELECT schema_name FROM information_schema.schemata" [] with
    | .error e => .err e
    | .ok res =>
      match scanStringRows res.2 with
      | .error e => .err e
      | .ok names => .ok names

/-- ListTables: defaults an empty schema to public, then queries the
tables catalog with the schema bound as a parameter. -/
def listTables (p : PostgresClient) (schema : String) : GoResult (List String) :=
  let schema := if schema == "" then "public" else schema
  match p.db with
  | none => .nilDeref
  | some db =>
    match db.query "SELECT table_name FROM information_schema.tables WHERE table_schema = $1"
        [GoValue.str schema] with
    | .error e => .err e
    | .ok res =>
      match scanStringRows res.2 with
      | .error e => .err e
      | .ok names => .ok names

/-- ListColumns: runs the denormalized catalog join for the given schema
and table and converts each row with scanColumn. -/
def listColumns (p : PostgresClient) (schema table : String) : GoResult (List Column) :=
  match p.db with
  | none => .nilDeref
  | some db =>
    match db.catalogColumns schema table with
    | .error e => .err e
    | .ok rows => .ok (rows.map scanColumn)

/-- strings.TrimSpace on the character list: drop whitespace from both
ends. -/
def goTrimSpaceL (l : List Char) : List Char :=
  (l.dropWhile goIsSpace).rdropWhile goIsSpace

/-- The lexical dispatch check of ExecuteQuery:
strings.HasPrefix(strings.TrimSpace(strings.ToUpper(sql)), "SELECT"). -/
def goStartsWithSelect (sqlText : String) : Bool :=
  List.isPrefixOf "SELECT".data (goTrimSpaceL (sqlText.data.map goCharToUpper))

/-- ExecuteQuery: non-SELECT input goes to db.Exec and yields no columns
and no rows (both nil, modelled none); SELECT input goes to db.Query and
yields the driver's columns plus the generically scanned rows.  Both
paths dereference the stored handle, so a never-connected client crashes
on either. -/
def executeQuery (p : PostgresClient) (sqlText : String) :
    GoResult (Option (List String) × Option (List (List GoValue))) :=
  match p.db with
  | none => .nilDeref
  | some db =>
    if !goStartsWithSelect sqlText then
      match db.exec sqlText [] with
      | .error e => .err e
      | .ok _ => .ok (none, none)
    else
      match db.query sqlText [] with
      | .error e => .err e
      | .ok res => .ok (some res.1, some res.2)

/-- GetTableData: the pure builder, then db.Query with the built text and
args; rows are scanned generically and passed through. -/
def getTableData (p : PostgresClient) (req : TableDataRequest) :
    GoResult (List String × List (List GoValue)) :=
  match buildTableDataQuery req with
  | .error e => .err e
  | .ok bq =>
    match p.db with
    | none => .nilDeref
    | some db =>
      match db.query bq.query bq.args with
      | .error e => .err e
      | .ok res => .ok res

/-- InsertRecord: builder then db.Exec. -/
def insertRecord (p : PostgresClient) (schema table : String)
    (data : List (String × GoValue)) : GoResult Unit :=
  match buildInsertQuery schema table data with
  | .error e => .err e
  | .ok bq =>
    match p.db with
    | none => .nilDeref
    | some db =>
      match db.exec bq.query bq.args with
      | .error e => .err e
      | .ok _ => .ok ()

/-- UpdateRecord: builder then db.Exec, returning RowsAffected. -/
def updateRecord (p : PostgresClient) (schema table : String)
    (data wh : List (String × GoValue)) : GoResult Int :=
  match buildUpdateQuery schema table data wh with
  | .error e => .err e
  | .ok bq =>
    match p.db with
    | none => .nilDeref
    | some db =>
      match db.exec bq.query bq.args with
      | .error e => .err e
      | .ok n => .ok n

/-- DeleteRecord: builder then db.Exec, wrapping an execution error and
returning RowsAffected. -/
def deleteRecord (p : PostgresClient) (schema table : String)
    (conditions : List (String × GoValue)) : GoResult Int :=
  match buildDeleteQuery schema table conditions with
  | .error e => .err e
  | .ok bq =>
    match p.db with
    | none => .nilDeref
    | some db =>
      match db.exec bq.query bq.args with
      | .error e => .err ("failed to execute delete: " ++ e)
      | .ok n => .ok n

/-- CreateTable: builder then db.Exec. -/
def createTable (p : PostgresClient) (tableName : String) (columns : List ColumnDef) :
    GoResult Unit :=
  match buildCreateTableQuery tableName columns with
  | .error e => .err e
  | .ok q =>
    match p.db with
    | none => .nilDeref
    | some db =>
      match db.exec q [] with
      | .error e => .err e
      | .ok _ => .ok ()

/-- AlterTable: builder then db.Exec. -/
def alterTable (p : PostgresClient) (tableName : String)
    (ops : List AlterTableOperation) : GoResult Unit :=
  match buildAlterTableQuery tableName ops with
  | .error e => .err e
  | .ok q =>
    match p.db with
    | none => .nilDeref
    | some db =>
      match db.exec q [] with
      | .error e => .err e
      | .ok _ => .ok ()

/-- DropTable: builder then db.Exec. -/
def dropTable (p : PostgresClient) (tableName : String) (cascade : Bool) :
    GoResult Unit :=
  match buildDropTableQuery tableName cascade with
  | .error e => .err e
  | .ok q =>
    match p.db with
    | none => .nilDeref
    | some db =>
      match db.exec q [] with
      | .error e => .err e
      | .ok _ => .ok ()

/-! ## Result helpers -/

/-- Outcome of a GoResult-valued operation, abstracting err != nil. -/
def isErrResult {α : Type} (r : GoResult α) : Bool :=
  match r with
  | .err _ => true
  | _ => false

/-- A handle whose liveness probe fails. -/
def pingFailDb : Database :=
  { pingError := some "ping: connection refused"
    closeError := none
    exec := fun _ _ => .error "driver: bad connection"
    query := fun _ _ => .error "driver: bad connection"
    catalogColumns := fun _ _ => .error "driver: bad connection" }

/-! ## Spec-side description of the filter pipeline (for C5, C6, C10) -/

/-- Spec-side reading of one filter string: the parse that GetTableData
applies, yielding (column, uppercased operator, value) for a filter that
splits into exactly three parts and carries a supported operator, and
none for a filter that is skipped. -/
def parseFilter (f : String) : Option (String × String × String) :=
  match goSplitN3 f with
  | [colRaw, opRaw, val] =>
    if isSupportedOp (goToUpperStr opRaw) then some (colRaw, goToUpperStr opRaw, val)
    else none
  | _ => none

/-- The supported filters of a request, in caller order. -/
def parsedSupportedFilters (filters : List String) : List (String × String × String) :=
  filters.filterMap parseFilter

/-- The WHERE condition texts the spec describes: one clause per
supported filter, in caller order, the i-th clause binding placeholder
number start+i+1. -/
def specFilterClauses (ps : List (String × String × String)) (start : Nat) : List String :=
  (ps.enumFrom start).map (fun p => filterClause p.2.1 p.2.2.1 (p.1 + 1))

/-! ## Claim C5 -/

/-- Spec-side assembly of the SELECT with its WHERE section: one clause
per supported filter in caller order, joined by AND. -/
def specWhereQuery (req : TableDataRequest) : String :=
  if parsedSupportedFilters req.filters = [] then selectStar req.schema req.table
  else
    selectStar req.schema req.table ++ " WHERE " ++
      String.intercalate " AND " (specFilterClauses (parsedSupportedFilters req.filters) 0)

/-- Spec-side assembly including the optional ORDER BY section. -/
def specOrderQuery (req : TableDataRequest) : String :=
  if req.orderBy != "" && IsValidIdentifier req.orderBy then
    specWhereQuery req ++ " ORDER BY " ++ pqQuoteIdentifier req.orderBy
  else specWhereQuery req

/-! ## Claim C7 -/

/-- Spec-side reading of the dispatch condition: the first non-whitespace
characters of the input, uppercased, are SELECT. -/
def firstNonWsIsSelect (q : String) : Bool :=
  ((q.data.dropWhile goIsSpace).take 6).map goCharToUpper == "SELECT".data

/-- A live handle answering one SELECT column and accepting writes. -/
def selectOneDb : Database :=
  { pingError := none
    closeError := none
    exec := fun _ _ => .ok 1
    query := fun _ _ => .ok (["x"], [[GoValue.int 1]])
    catalogColumns := fun _ _ => .ok [] }

/-- A client holding the live handle. -/
def connectedClient : PostgresClient := { db := some selectOneDb }

/-! ## Theorems -/

/-! ## Auxiliary character lemmas -/

theorem char_toNat_ofNat (n : Nat) (h : n < 55296) : (Char.ofNat n).toNat = n := by
  have hv : n.isValidChar := Or.inl h
  unfold Char.ofNat
  rw [dif_pos hv]
  unfold Char.ofNatAux
  simp [Char.toNat, UInt32.toNat]

theorem goIsSpace_goCharToUpper (c : Char) :
    goIsSpace (goCharToUpper c) = goIsSpace c := by
  unfold goCharToUpper
  split
  case isTrue h =>
    have h32 : c.toNat - 32 < 55296 := by omega
    simp only [goIsSpace, char_toNat_ofNat _ h32, decide_eq_decide]
    omega
  case isFalse h => rfl

theorem isIdentHeadChar_iff (c : Char) :
    isIdentHeadChar c = true ↔ isIdentTailChar c = true ∧ isAsciiDigit c = false := by
  simp only [isIdentHeadChar, isIdentTailChar, isAsciiLetter, isAsciiDigit, isUnderscoreChar,
    Bool.or_eq_true, decide_eq_true_eq, decide_eq_false_iff_not]
  omega

theorem isIdentTailChar_iff (c : Char) :
    isIdentTailChar c = true ↔
      isAsciiLetter c = true ∨ isAsciiDigit c = true ∨ isUnderscoreChar c = true := by
  simp [isIdentTailChar, Bool.or_eq_true, or_assoc]

/-- C8: for all strings s, IsValidIdentifier s is true iff s matches the
regular expression anchored [A-Za-z_][A-Za-z0-9_]* — that is, s is
non-empty, consists only of ASCII letters, digits and underscore, and its
first character is not a digit. -/
theorem C8_isValidIdentifier_iff_regex (s : String) :
    IsValidIdentifier s = true ↔ MatchesIdentifierRegex s := by
  unfold IsValidIdentifier MatchesIdentifierRegex
  cases hs : s.data with
  | nil => simp
  | cons c rest =>
    simp only [Bool.and_eq_true, List.all_eq_true, List.head?_cons, Option.some.injEq,
      ne_eq, List.cons_ne_nil, not_false_iff, true_and, List.mem_cons, forall_eq_or_imp,
      isIdentHeadChar_iff, isIdentTailChar_iff]
    constructor
    · rintro ⟨⟨hct, hcd⟩, hrest⟩
      exact ⟨⟨hct, hrest⟩, fun c' hc' => hc' ▸ hcd⟩
    · rintro ⟨⟨hc, hrest⟩, hhead⟩
      exact ⟨⟨hc, hhead c rfl⟩, hrest⟩

/-! ## Claim C3 -/

/-- C3 counterexample: a catalog row whose column_default is NULL and the
same row with the empty string as its default scan to identical Column
records, and the NULL default arrives as the empty string — a consumer
cannot tell no-default apart from empty-string default. -/
theorem C3_counterexample :
    scanColumn ⟨"c", "text", "YES", none, some false, none⟩ =
      scanColumn ⟨"c", "text", "YES", some "", some false, none⟩ ∧
    (scanColumn ⟨"c", "text", "YES", none, some false, none⟩).colDefault = "" :=
  ⟨rfl, rfl⟩

/-- C3 amended: a NULL column default is scanned into the empty string —
Column.Default is a plain Go string, so a NULL default and an
empty-string default produce the same returned record. -/
theorem C3_null_default_collapses (r : ColumnCatalogRow) (h : r.columnDefault = none) :
    (scanColumn r).colDefault = "" ∧
    scanColumn r = scanColumn { r with columnDefault := some "" } := by
  simp [scanColumn, h]

/-- C3 witness: the amended theorem applied to a concrete catalog row. -/
theorem C3_witness :
    (scanColumn ⟨"c", "text", "YES", none, some false, none⟩).colDefault = "" ∧
    scanColumn ⟨"c", "text", "YES", none, some false, none⟩ =
      scanColumn { (⟨"c", "text", "YES", none, some false, none⟩ : ColumnCatalogRow) with
        columnDefault := some "" } :=
  C3_null_default_collapses ⟨"c", "text", "YES", none, some false, none⟩ rfl

/-! ## Claim C4 -/

theorem buildUpdateQuery_empty_where (s t : String) (data : List (String × GoValue)) :
    isErr (buildUpdateQuery s t data []) = true := by
  cases data <;> simp [buildUpdateQuery, isErr]

theorem buildUpdateQuery_empty_set (s t : String) (wh : List (String × GoValue)) :
    isErr (buildUpdateQuery s t [] wh) = true := by
  simp [buildUpdateQuery, isErr]

theorem buildDeleteQuery_empty_conditions (s t : String) :
    isErr (buildDeleteQuery s t []) = true := by
  simp [buildDeleteQuery, isErr]

/-- C4: UpdateRecord with an empty WHERE map, UpdateRecord with an empty
SET map, and DeleteRecord with an empty conditions map each fail with a
validation error before any SQL text is produced: the builder returns an
error (no BuiltQuery exists), and the full operation returns err on every
client — including a never-connected one — showing the database is never
reached. -/
theorem C4_empty_maps_rejected :
    (∀ s t data, isErr (buildUpdateQuery s t data []) = true) ∧
    (∀ s t wh, isErr (buildUpdateQuery s t [] wh) = true) ∧
    (∀ s t, isErr (buildDeleteQuery s t []) = true) ∧
    (∀ p s t data, isErrResult (updateRecord p s t data []) = true) ∧
    (∀ p s t wh, isErrResult (updateRecord p s t [] wh) = true) ∧
    (∀ p s t, isErrResult (deleteRecord p s t []) = true) := by
  refine ⟨buildUpdateQuery_empty_where, buildUpdateQuery_empty_set,
    buildDeleteQuery_empty_conditions, ?_, ?_, ?_⟩
  · intro p s t data
    unfold updateRecord
    have hb := buildUpdateQuery_empty_where s t data
    cases hq : buildUpdateQuery s t data [] with
    | error e => simp [isErrResult]
    | ok bq => rw [hq] at hb; simp [isErr] at hb
  · intro p s t wh
    unfold updateRecord
    have hb := buildUpdateQuery_empty_set s t wh
    cases hq : buildUpdateQuery s t [] wh with
    | error e => simp [isErrResult]
    | ok bq => rw [hq] at hb; simp [isErr] at hb
  · intro p s t
    unfold deleteRecord
    have hb := buildDeleteQuery_empty_conditions s t
    cases hq : buildDeleteQuery s t [] with
    | error e => simp [isErrResult]
    | ok bq => rw [hq] at hb; simp [isErr] at hb

/-! ## Claim C9 -/

/-- C9: when sql.Open succeeds and the liveness probe then fails, Connect
returns the probe's error, yet the stored handle has been replaced by the
new unverified one; no handle is closed during the call, so the previous
handle is neither restored nor closed. -/
theorem C9_failed_connect_swaps_handle (p : PostgresClient) (db : Database) (e : String)
    (h : db.pingError = some e) :
    connect p (.ok db) = ({ db := some db }, some e, []) := by
  simp [connect, h]

/-- C9 witness: the theorem applied to a fresh client and a concrete
probe-failing handle. -/
theorem C9_witness :
    connect NewPostgresClient (.ok pingFailDb) =
      ({ db := some pingFailDb }, some "ping: connection refused", []) :=
  C9_failed_connect_swaps_handle NewPostgresClient pingFailDb "ping: connection refused" rfl

/-! ## Claim C1 -/

/-- C1 counterexample: InsertRecord performs no identifier validation at
all — a column name that fails IsValidIdentifier is embedded verbatim
(unquoted) into the INSERT text and the build succeeds, so the operation
does not fail before SQL is built. -/
theorem C1_counterexample :
    IsValidIdentifier "bad col" = false ∧
    buildInsertQuery "public" "users" [("bad col", GoValue.str "v")] =
      .ok { query := "INSERT INTO \"public\".\"users\" (bad col) VALUES ($1)",
            args := [GoValue.str "v"] } := by
  exact ⟨by decide, rfl⟩

theorem buildEqClauses_invalid_column (l : List (String × GoValue)) (i : Nat)
    (h : ∃ c ∈ l.map Prod.fst, IsValidIdentifier c = false) :
    isErr (buildEqClauses l i) = true := by
  induction l generalizing i with
  | nil => simp at h
  | cons hd tl ih =>
    obtain ⟨c, hmem, hinv⟩ := h
    rw [List.map_cons, List.mem_cons] at hmem
    unfold buildEqClauses
    by_cases hv : IsValidIdentifier hd.1 = true
    · rcases hmem with rfl | hmem
      · rw [hv] at hinv; cases hinv
      · rcases hd with ⟨col, val⟩
        simp only at hv
        rw [if_pos hv]
        have := ih (i + 1) ⟨c, hmem, hinv⟩
        cases hq : buildEqClauses tl (i + 1) with
        | error e => simp [isErr]
        | ok cv => rw [hq] at this; simp [isErr] at this
    · rcases hd with ⟨col, val⟩
      simp only at hv
      rw [if_neg hv]
      simp [isErr]

/-- C1 amended: of the operations that embed caller-supplied identifiers,
only UpdateRecord (SET and WHERE column names) and DeleteRecord
(condition column names) validate with IsValidIdentifier and fail before
any SQL is built; InsertRecord embeds schema, table and column names
unvalidated (see the counterexample), and GetTableData quote-escapes
rather than validates filter column names. -/
theorem C1_update_delete_validate_columns :
    (∀ schema table data wh,
      (∃ c ∈ data.map Prod.fst ++ wh.map Prod.fst, IsValidIdentifier c = false) →
      isErr (buildUpdateQuery schema table data wh) = true) ∧
    (∀ schema table conditions,
      (∃ c ∈ conditions.map Prod.fst, IsValidIdentifier c = false) →
      isErr (buildDeleteQuery schema table conditions) = true) := by
  constructor
  · intro schema table data wh h
    unfold buildUpdateQuery
    by_cases hd : data.length = 0
    · rw [if_pos hd]; simp [isErr]
    · rw [if_neg hd]
      by_cases hw : wh.length = 0
      · rw [if_pos hw]; simp [isErr]
      · rw [if_neg hw]
        obtain ⟨c, hmem, hinv⟩ := h
        rw [List.mem_append] at hmem
        rcases hmem with hmem | hmem
        · have := buildEqClauses_invalid_column data 1 ⟨c, hmem, hinv⟩
          cases hq : buildEqClauses data 1 with
          | error e => simp [isErr]
          | ok cv => rw [hq] at this; simp [isErr] at this
        · cases hq : buildEqClauses data 1 with
          | error e => simp [isErr]
          | ok cv =>
            rcases cv with ⟨cs, vs⟩
            have := buildEqClauses_invalid_column wh (data.length + 1) ⟨c, hmem, hinv⟩
            cases hq2 : buildEqClauses wh (data.length + 1) with
            | error e => simp [isErr]
            | ok cv2 => rw [hq2] at this; simp [isErr] at this
  · intro schema table conditions h
    unfold buildDeleteQuery
    by_cases htc : (table == "" || conditions.length == 0) = true
    · rw [if_pos htc]; simp [isErr]
    · rw [if_neg htc]
      have := buildEqClauses_invalid_column conditions 1 h
      cases hq : buildEqClauses conditions 1 with
      | error e => simp [isErr]
      | ok cv => rw [hq] at this; simp [isErr] at this

/-- C1 witness: the amended theorem applied to concrete UPDATE and DELETE
requests each carrying one invalid column name. -/
theorem C1_witness :
    isErr (buildUpdateQuery "public" "users"
      [("bad col", GoValue.str "x")] [("id", GoValue.int 1)]) = true ∧
    isErr (buildDeleteQuery "public" "users" [("bad col", GoValue.str "x")]) = true :=
  ⟨C1_update_delete_validate_columns.1 "public" "users"
      [("bad col", GoValue.str "x")] [("id", GoValue.int 1)] (by decide),
   C1_update_delete_validate_columns.2 "public" "users"
      [("bad col", GoValue.str "x")] (by decide)⟩

/-! ## Claim C2 -/

/-- C2 counterexample: a client on which no Connect has occurred has a
nil handle, and ListSchemas on it crashes with a nil dereference instead
of failing with a no-active-connection error: no connection-state check
exists in the client. -/
theorem C2_counterexample :
    NewPostgresClient.db = none ∧
    listSchemas NewPostgresClient = GoResult.nilDeref :=
  ⟨rfl, rfl⟩

/-- C2 amended: invoked on a client in the Disconnected state, every
operation other than Connect and Disconnect dereferences the nil handle
and crashes (a Go runtime panic) the moment it reaches the database —
after any builder-level validation — rather than failing with a
no-active-connection error. -/
theorem C2_nil_handle_crashes (p : PostgresClient) (h : p.db = none) :
    listSchemas p = .nilDeref ∧
    (∀ schema, listTables p schema = .nilDeref) ∧
    (∀ schema table, listColumns p schema table = .nilDeref) ∧
    (∀ q, executeQuery p q = .nilDeref) ∧
    (∀ req bq, buildTableDataQuery req = .ok bq → getTableData p req = .nilDeref) ∧
    (∀ s t d bq, buildInsertQuery s t d = .ok bq → insertRecord p s t d = .nilDeref) ∧
    (∀ s t d w bq, buildUpdateQuery s t d w = .ok bq → updateRecord p s t d w = .nilDeref) ∧
    (∀ s t cs bq, buildDeleteQuery s t cs = .ok bq → deleteRecord p s t cs = .nilDeref) ∧
    (∀ t cols q, buildCreateTableQuery t cols = .ok q → createTable p t cols = .nilDeref) ∧
    (∀ t ops q, buildAlterTableQuery t ops = .ok q → alterTable p t ops = .nilDeref) ∧
    (∀ t c q, buildDropTableQuery t c = .ok q → dropTable p t c = .nilDeref) := by
  refine ⟨?_, ?_, ?_, ?_, ?_, ?_, ?_, ?_, ?_, ?_, ?_⟩
  · simp [listSchemas, h]
  · intro schema; simp [listTables, h]
  · intro schema table; simp [listColumns, h]
  · intro q; simp [executeQuery, h]
  · intro req bq hb; simp [getTableData, hb, h]
  · intro s t d bq hb; simp [insertRecord, hb, h]
  · intro s t d w bq hb; simp [updateRecord, hb, h]
  · intro s t cs bq hb; simp [deleteRecord, hb, h]
  · intro t cols q hb; simp [createTable, hb, h]
  · intro t ops q hb; simp [alterTable, hb, h]
  · intro t c q hb; simp [dropTable, hb, h]

/-- C2 witness: every operation applied to the fresh (never-connected)
client at concrete valid inputs, each crashing with the nil dereference. -/
theorem C2_witness :
    listSchemas NewPostgresClient = .nilDeref ∧
    listTables NewPostgresClient "public" = .nilDeref ∧
    listColumns NewPostgresClient "public" "users" = .nilDeref ∧
    executeQuery NewPostgresClient "SELECT 1" = .nilDeref ∧
    getTableData NewPostgresClient ⟨"public", "users", "10", "0", "", []⟩ = .nilDeref ∧
    insertRecord NewPostgresClient "public" "users" [("id", GoValue.int 1)] = .nilDeref ∧
    updateRecord NewPostgresClient "public" "users"
      [("name", GoValue.str "x")] [("id", GoValue.int 1)] = .nilDeref ∧
    deleteRecord NewPostgresClient "public" "users" [("id", GoValue.int 1)] = .nilDeref ∧
    createTable NewPostgresClient "users" [⟨"id", "integer", true, true, ""⟩] = .nilDeref ∧
    alterTable NewPostgresClient "users" [⟨"drop_column", "old", "", "", none, ""⟩] = .nilDeref ∧
    dropTable NewPostgresClient "users" false = .nilDeref := by
  have hc := C2_nil_handle_crashes NewPostgresClient rfl
  exact ⟨hc.1, hc.2.1 "public", hc.2.2.1 "public" "users", hc.2.2.2.1 "SELECT 1",
    hc.2.2.2.2.1 ⟨"public", "users", "10", "0", "", []⟩ _ rfl,
    hc.2.2.2.2.2.1 "public" "users" [("id", GoValue.int 1)] _ rfl,
    hc.2.2.2.2.2.2.1 "public" "users" [("name", GoValue.str "x")] [("id", GoValue.int 1)] _ rfl,
    hc.2.2.2.2.2.2.2.1 "public" "users" [("id", GoValue.int 1)] _ rfl,
    hc.2.2.2.2.2.2.2.2.1 "users" [⟨"id", "integer", true, true, ""⟩] _ rfl,
    hc.2.2.2.2.2.2.2.2.2.1 "users" [⟨"drop_column", "old", "", "", none, ""⟩] _ rfl,
    hc.2.2.2.2.2.2.2.2.2.2 "users" false _ rfl⟩

theorem filterStep_eq_parseFilter (acc : List String × List GoValue) (f : String) :
    filterStep acc f =
      match parseFilter f with
      | some t =>
        (acc.1 ++ [filterClause t.1 t.2.1 (acc.2.length + 1)], acc.2 ++ [GoValue.str t.2.2])
      | none => acc := by
  unfold filterStep parseFilter
  cases h1 : goSplitN3 f with
  | nil => rfl
  | cons a t1 =>
    cases t1 with
    | nil => rfl
    | cons b t2 =>
      cases t2 with
      | nil => rfl
      | cons c t3 =>
        cases t3 with
        | cons d t4 => rfl
        | nil =>
          by_cases hop : isSupportedOp (goToUpperStr b) = true <;> simp [hop]

theorem specFilterClauses_nil (start : Nat) : specFilterClauses [] start = [] := rfl

theorem specFilterClauses_cons (t : String × String × String)
    (ps : List (String × String × String)) (start : Nat) :
    specFilterClauses (t :: ps) start =
      filterClause t.1 t.2.1 (start + 1) :: specFilterClauses ps (start + 1) := rfl

/-- The filter loop of GetTableData computes exactly the spec-side
clause list and value list: starting from accumulated (conds, args), it
appends one clause and one bound value per supported filter, in caller
order, with consecutive placeholder numbers continuing from the number
of already-bound arguments. -/
theorem foldl_filterStep_eq (fs : List String) (conds : List String) (args : List GoValue) :
    fs.foldl filterStep (conds, args) =
      (conds ++ specFilterClauses (parsedSupportedFilters fs) args.length,
       args ++ (parsedSupportedFilters fs).map (fun t => GoValue.str t.2.2)) := by
  induction fs generalizing conds args with
  | nil => simp [parsedSupportedFilters, specFilterClauses]
  | cons f rest ih =>
    rw [List.foldl_cons, filterStep_eq_parseFilter]
    cases hp : parseFilter f with
    | none =>
      simp only [parsedSupportedFilters, List.filterMap_cons, hp]
      exact ih conds args
    | some t =>
      simp only [parsedSupportedFilters, List.filterMap_cons, hp]
      rw [ih (conds ++ [filterClause t.1 t.2.1 (args.length + 1)])
        (args ++ [GoValue.str t.2.2])]
      rw [specFilterClauses_cons]
      simp [List.append_assoc, parsedSupportedFilters]

theorem specFilterClauses_length (ps : List (String × String × String)) (n : Nat) :
    (specFilterClauses ps n).length = ps.length := by
  simp [specFilterClauses]

theorem intercalate_and_singleton (x : String) : String.intercalate " AND " [x] = x := rfl

/-- C5: for every valid table-data request, the built SELECT consists of
the base statement, one WHERE clause per supported filter in caller
order joined by AND with consecutively numbered placeholders, the
optional ORDER BY, and a trailing LIMIT/OFFSET clause whose two
placeholders come after all filter placeholders; the argument list is
the filter values in caller order followed by limit and offset as the
last two positional arguments. -/
theorem C5_filters_in_order_limit_offset_last (req : TableDataRequest) (l o : Int)
    (hs : IsValidIdentifier req.schema = true)
    (ht : IsValidIdentifier req.table = true)
    (hl : goAtoi req.limit = some l) (hl0 : 0 ≤ l)
    (ho : goAtoi req.offset = some o) (ho0 : 0 ≤ o) :
    buildTableDataQuery req =
      .ok { query := specOrderQuery req ++
              limitOffsetSuffix (parsedSupportedFilters req.filters).length,
            args := (parsedSupportedFilters req.filters).map (fun t => GoValue.str t.2.2) ++
              [GoValue.int l, GoValue.int o] } := by
  unfold buildTableDataQuery
  rw [hs, ht, hl, ho]
  rw [if_neg (by simp)]
  dsimp only
  rw [if_neg (by omega : ¬l < 0), if_neg (by omega : ¬o < 0)]
  rw [foldl_filterStep_eq]
  simp only [List.nil_append, List.length_nil]
  by_cases hps : parsedSupportedFilters req.filters = []
  · simp [hps, specOrderQuery, specWhereQuery, specFilterClauses_nil]
  · have hlen : 0 < (specFilterClauses (parsedSupportedFilters req.filters) 0).length := by
      rw [specFilterClauses_length]
      cases hps2 : parsedSupportedFilters req.filters with
      | nil => exact absurd hps2 hps
      | cons a t => simp
    rw [if_pos hlen]
    simp [specOrderQuery, specWhereQuery, hps, specFilterClauses_length]

/-- C5 witness: the spec's own example — filters age:>=:30 then
name:LIKE:john, limit 10, offset 0 — yields exactly two AND-joined WHERE
clauses in caller order and limit/offset bound as the last two
arguments. -/
theorem C5_witness :
    buildTableDataQuery ⟨"public", "users", "10", "0", "", ["age:>=:30", "name:LIKE:john"]⟩ =
      .ok { query := "SELECT * FROM \"public\".\"users\" WHERE \"age\" >= $1 AND \"name\" LIKE $2 LIMIT $3 OFFSET $4",
            args := [GoValue.str "30", GoValue.str "john", GoValue.int 10, GoValue.int 0] } :=
  (C5_filters_in_order_limit_offset_last
    ⟨"public", "users", "10", "0", "", ["age:>=:30", "name:LIKE:john"]⟩ 10 0
    (by decide) (by decide) (by decide) (by decide) (by decide) (by decide)).trans
    (congrArg Except.ok (by decide))

/-! ## Claim C6 -/

/-- C6: a filter whose operator is not in the supported set is silently
dropped rather than rejected — a table-data request whose only filter
uses operator != builds exactly the same successful statement as the
same request with no filters at all: no WHERE clause, no bound filter
value. -/
theorem C6_unsupported_operator_dropped (schema table limit offset orderBy : String)
    (l o : Int)
    (hs : IsValidIdentifier schema = true) (ht : IsValidIdentifier table = true)
    (hl : goAtoi limit = some l) (hl0 : 0 ≤ l)
    (ho : goAtoi offset = some o) (ho0 : 0 ≤ o) :
    ∃ bq, buildTableDataQuery ⟨schema, table, limit, offset, orderBy, ["id:!=:5"]⟩ = .ok bq ∧
      buildTableDataQuery ⟨schema, table, limit, offset, orderBy, []⟩ = .ok bq := by
  have hstep : ["id:!=:5"].foldl filterStep ([], []) = ([], []) := by decide
  unfold buildTableDataQuery
  simp only [hstep, List.foldl_nil]
  rw [hs, ht, hl, ho]
  rw [if_neg (by simp)]
  dsimp only
  rw [if_neg (by omega : ¬l < 0), if_neg (by omega : ¬o < 0)]
  exact ⟨_, rfl, rfl⟩

/-- C6 witness: the theorem at a concrete request; the built statement
has no WHERE section and binds only limit and offset. -/
theorem C6_witness :
    ∃ bq,
      buildTableDataQuery ⟨"public", "users", "10", "0", "", ["id:!=:5"]⟩ = .ok bq ∧
      buildTableDataQuery ⟨"public", "users", "10", "0", "", []⟩ = .ok bq :=
  C6_unsupported_operator_dropped "public" "users" "10" "0" "" 10 0
    (by decide) (by decide) (by decide) (by decide) (by decide) (by decide)

/-! ## Claim C10 -/

/-- C10: operator matching is case-insensitive — a single filter whose
operator uppercases into the supported set (for example like) is treated
as supported: the built statement carries a WHERE clause with the
uppercased operator and binds the filter value as $1, ahead of limit and
offset. -/
theorem C10_operator_case_insensitive (schema table limit offset : String) (l o : Int)
    (f colRaw opRaw val : String)
    (hs : IsValidIdentifier schema = true) (ht : IsValidIdentifier table = true)
    (hl : goAtoi limit = some l) (hl0 : 0 ≤ l)
    (ho : goAtoi offset = some o) (ho0 : 0 ≤ o)
    (hf : goSplitN3 f = [colRaw, opRaw, val])
    (hop : isSupportedOp (goToUpperStr opRaw) = true) :
    buildTableDataQuery ⟨schema, table, limit, offset, "", [f]⟩ =
      .ok { query := selectStar schema table ++ " WHERE " ++
              filterClause colRaw (goToUpperStr opRaw) 1 ++ limitOffsetSuffix 1,
            args := [GoValue.str val, GoValue.int l, GoValue.int o] } := by
  unfold buildTableDataQuery
  rw [hs, ht, hl, ho]
  rw [if_neg (by simp)]
  dsimp only
  rw [if_neg (by omega : ¬l < 0), if_neg (by omega : ¬o < 0)]
  rw [List.foldl_cons, List.foldl_nil, filterStep_eq_parseFilter]
  unfold parseFilter
  rw [hf]
  simp only [hop, if_true]
  simp [intercalate_and_singleton]

/-- C10 witness: the lowercase operator like is accepted and emitted as
LIKE with the value bound first. -/
theorem C10_witness :
    buildTableDataQuery ⟨"public", "users", "10", "0", "", ["name:like:john"]⟩ =
      .ok { query := "SELECT * FROM \"public\".\"users\" WHERE \"name\" LIKE $1 LIMIT $2 OFFSET $3",
            args := [GoValue.str "john", GoValue.int 10, GoValue.int 0] } :=
  (C10_operator_case_insensitive "public" "users" "10" "0" 10 0
    "name:like:john" "name" "like" "john"
    (by decide) (by decide) (by decide) (by decide) (by decide) (by decide)
    (by decide) (by decide)).trans (congrArg Except.ok (by decide))

theorem dropWhile_map_goCharToUpper (l : List Char) :
    (l.map goCharToUpper).dropWhile goIsSpace =
      (l.dropWhile goIsSpace).map goCharToUpper := by
  rw [List.dropWhile_map]
  rw [show (goIsSpace ∘ goCharToUpper) = goIsSpace from funext goIsSpace_goCharToUpper]

theorem rdropWhile_map_goCharToUpper (l : List Char) :
    (l.map goCharToUpper).rdropWhile goIsSpace =
      (l.rdropWhile goIsSpace).map goCharToUpper := by
  unfold List.rdropWhile
  rw [← List.map_reverse, dropWhile_map_goCharToUpper, List.map_reverse]

theorem goTrimSpaceL_map_goCharToUpper (l : List Char) :
    goTrimSpaceL (l.map goCharToUpper) = (goTrimSpaceL l).map goCharToUpper := by
  unfold goTrimSpaceL
  rw [dropWhile_map_goCharToUpper, rdropWhile_map_goCharToUpper]

theorem rdropWhile_append_rtakeWhile (l : List Char) (p : Char → Bool) :
    l.rdropWhile p ++ l.rtakeWhile p = l := by
  unfold List.rdropWhile List.rtakeWhile
  rw [← List.reverse_append, List.takeWhile_append_dropWhile, List.reverse_reverse]

theorem mem_rtakeWhile_space (l : List Char) (a : Char)
    (h : a ∈ l.rtakeWhile goIsSpace) : goIsSpace a = true := by
  unfold List.rtakeWhile at h
  rw [List.mem_reverse] at h
  exact List.mem_takeWhile_imp h

/-- Trimming trailing whitespace does not change whether the first six
characters uppercase to SELECT: the sixth character of a SELECT head is
the non-space letter T, so the right trim never reaches into it. -/
theorem map_take6_rdropWhile_select (m : List Char) :
    ((m.rdropWhile goIsSpace).take 6).map goCharToUpper = "SELECT".data ↔
      (m.take 6).map goCharToUpper = "SELECT".data := by
  have hpre : m.rdropWhile goIsSpace <+: m := List.rdropWhile_prefix goIsSpace m
  have hr : m.rdropWhile goIsSpace = m.take (m.rdropWhile goIsSpace).length :=
    List.prefix_iff_eq_take.mp hpre
  have htake : 6 ≤ (m.rdropWhile goIsSpace).length →
      (m.rdropWhile goIsSpace).take 6 = m.take 6 := by
    intro h6
    rw [hr, List.take_take, min_eq_left h6]
  constructor
  · intro h
    have hlen : (((m.rdropWhile goIsSpace).take 6).map goCharToUpper).length = 6 := by
      rw [h]; rfl
    simp only [List.length_map, List.length_take] at hlen
    rw [htake (by omega)] at h
    exact h
  · intro h
    have hlen : ((m.take 6).map goCharToUpper).length = 6 := by
      rw [h]; rfl
    simp only [List.length_map, List.length_take] at hlen
    by_cases h6 : 6 ≤ (m.rdropWhile goIsSpace).length
    · rw [htake h6]
      exact h
    · exfalso
      have h5q : ((m.take 6).map goCharToUpper)[5]? = some 'T' := by
        rw [h]; rfl
      rw [List.getElem?_map, List.getElem?_take, if_pos (by omega : (5 : Nat) < 6)] at h5q
      cases h5m : m[5]? with
      | none => rw [h5m] at h5q; cases h5q
      | some c =>
        rw [h5m] at h5q
        have hup : goCharToUpper c = 'T' := by
          simpa using h5q
        have hspc : goIsSpace c = false := by
          have := goIsSpace_goCharToUpper c
          rw [hup] at this
          rw [← this]
          decide
        have hsplit := rdropWhile_append_rtakeWhile m goIsSpace
        have h5mem : c ∈ m.rtakeWhile goIsSpace := by
          have h5q2 : (m.rdropWhile goIsSpace ++ m.rtakeWhile goIsSpace)[5]? = some c := by
            rw [hsplit]; exact h5m
          rw [List.getElem?_append_right (by omega)] at h5q2
          exact List.getElem?_mem h5q2
        rw [mem_rtakeWhile_space m c h5mem] at hspc
        cases hspc

/-- The dispatch check of ExecuteQuery equals the spec-side condition:
HasPrefix(TrimSpace(ToUpper(q)), SELECT) holds exactly when the first
non-whitespace characters of q, uppercased, are SELECT. -/
theorem goStartsWithSelect_eq_firstNonWs (q : String) :
    goStartsWithSelect q = firstNonWsIsSelect q := by
  unfold goStartsWithSelect firstNonWsIsSelect goTrimSpaceL
  rw [Bool.eq_iff_iff, List.isPrefixOf_iff_prefix, beq_iff_eq]
  rw [dropWhile_map_goCharToUpper, rdropWhile_map_goCharToUpper]
  rw [List.prefix_iff_eq_take]
  rw [show ("SELECT".data).length = 6 from rfl]
  rw [show List.take 6 (((q.data.dropWhile goIsSpace).rdropWhile goIsSpace).map goCharToUpper) =
    (((q.data.dropWhile goIsSpace).rdropWhile goIsSpace).take 6).map goCharToUpper from
    (List.map_take goCharToUpper _ 6).symm]
  rw [eq_comm]
  exact map_take6_rdropWhile_select (q.data.dropWhile goIsSpace)

/-- C7: ExecuteQuery routes on the lexical check alone — whenever the
first non-whitespace characters of the input are SELECT in any letter
case, the read path runs db.Query and returns its columns and scanned
rows; on every other input the write path runs db.Exec and, when the
engine accepts the statement, returns no columns and no rows with no
error. -/
theorem C7_executeQuery_dispatch (p : PostgresClient) (db : Database)
    (hdb : p.db = some db) (q : String) :
    (firstNonWsIsSelect q = true →
      executeQuery p q =
        match db.query q [] with
        | .error e => .err e
        | .ok res => .ok (some res.1, some res.2)) ∧
    (firstNonWsIsSelect q = false →
      executeQuery p q =
        match db.exec q [] with
        | .error e => .err e
        | .ok _ => .ok (none, none)) := by
  constructor
  · intro hsel
    rw [← goStartsWithSelect_eq_firstNonWs] at hsel
    unfold executeQuery
    rw [hdb]
    dsimp only
    rw [hsel]
    rfl
  · intro hsel
    rw [← goStartsWithSelect_eq_firstNonWs] at hsel
    unfold executeQuery
    rw [hdb]
    dsimp only
    rw [hsel]
    rfl

/-- C7 witness: a leading-whitespace lowercase select routes to the read
path and returns the scanned columns and rows; a DELETE routes to the
write path and returns no columns, no rows and no error. -/
theorem C7_witness :
    executeQuery connectedClient "  select 1" =
      .ok (some ["x"], some [[GoValue.int 1]]) ∧
    executeQuery connectedClient "DELETE FROM users" = .ok (none, none) :=
  ⟨((C7_executeQuery_dispatch connectedClient selectOneDb rfl "  select 1").1
      (by decide)).trans rfl,
   ((C7_executeQuery_dispatch connectedClient selectOneDb rfl "DELETE FROM users").2
      (by decide)).trans rfl⟩
